import Mathlib

/-!
Verification of the craft-parts step execution core (`executor/step_handler.py`
and the error taxonomy in `errors.py`) via a shallow embedding.

Conventions of the embedding:
* Python strings are Lean `String`s; operations that must evaluate in the
  kernel are implemented over `String.data` (lists of characters) with
  structural recursion.
* Python byte strings that the code only ever decodes as UTF-8 (the captured
  stderr of a child process) are modelled as the `String` resulting from that
  decoding.
* Filesystem and subprocess actions are modelled as an explicit trace of
  `Effect` values; the outcome of each child process and of each out-of-scope
  collaborator (source handler, fileset resolver, file migrator) is an oracle
  carried by the handler model, so theorems quantify over every collaborator
  behaviour.
* Python exceptions are modelled by `Except PyErr`; an uncaught exception is a
  `.error` result that the callers propagate exactly where the source does.
-/

namespace CraftParts

/-- The five lifecycle steps (`craft_parts.steps.Step`), in pipeline order. -/
inductive Step
  | pull
  | overlay
  | build
  | stage
  | prime
deriving DecidableEq

/-- `craft_parts.utils.partition_utils.DEFAULT_PARTITION`. -/
def DEFAULT_PARTITION : String := "default"

/-- Model of the Python `repr` of a string as interpolated by `{x!r}` in
f-strings, for names without quotes or escape-worthy characters (the only
shapes the claims exercise): the string wrapped in single quotes. -/
def pyRepr (s : String) : String := "\x27" ++ s ++ "\x27"

/-- Python `str.split(sep)` for a one-character separator, over the character
list of the string.  Structural recursion so that the kernel can evaluate it. -/
def splitChar (sep : Char) : List Char → List (List Char)
  | [] => [[]]
  | c :: cs =>
    match splitChar sep cs with
    | [] => [[]]
    | g :: gs => if c = sep then [] :: g :: gs else (c :: g) :: gs

/-- Python `s.split(sep)` for a one-character separator. -/
def pySplit (s : String) (sep : Char) : List String :=
  (splitChar sep s.data).map (fun l => ⟨l⟩)

/-- Python `s.startswith(p)`, over character lists. -/
def pyStartsWith (s p : String) : Bool := p.data.isPrefixOf s.data

/-- The non-empty lines of a string: Python
`list(filter(lambda x: x, s.split("\n")))`. -/
def pyNonEmptyLines (s : String) : List String :=
  (pySplit s '\n').filter (fun l => l ≠ "")

/-- A child process result carried by `craft_parts.utils.process.ProcessError`:
the exit code and the captured stderr (decoded), as used by the step handler. -/
structure ProcResult where
  returncode : Int
  stderr : Option String
deriving DecidableEq

/-- The exceptions the embedded code raises or handles.  `PartsError`
subclasses carry the constructor arguments of the corresponding classes in
`errors.py`; `runtimeError` / `valueError` / `typeError` are the Python
builtins of the same names. -/
inductive PyErr
  | pluginPull (partName : String)
  | pluginBuild (partName pluginName : String) (stderr : Option String)
  | scriptletRun (partName scriptletName : String) (exitCode : Int) (stderr : Option String)
  | invalidControlAPICall (partName scriptletName message : String)
  | otherParts (brief : String)
  | runtimeError (msg : String)
  | valueError (msg : String)
  | typeError (msg : String)
deriving DecidableEq

/-- Whether the exception is an instance of `errors.PartsError`. -/
def PyErr.isPartsError : PyErr → Bool
  | .pluginPull _ => true
  | .pluginBuild _ _ _ => true
  | .scriptletRun _ _ _ _ => true
  | .invalidControlAPICall _ _ _ => true
  | .otherParts _ => true
  | .runtimeError _ => false
  | .valueError _ => false
  | .typeError _ => false

/-- Whether the exception is an instance of `errors.PluginBuildError`. -/
def PyErr.isPluginBuildError : PyErr → Bool
  | .pluginBuild _ _ _ => true
  | _ => false

/-- The anchor search of `UserExecutionError.details` (errors.py lines
528-536): walk the reversed line list counting lines that start with `+`;
when the count exceeds three, return the current reversed index. -/
def findAnchor : List String → Nat → Nat → Option Nat
  | [], _, _ => none
  | line :: rest, idx, count =>
    if pyStartsWith line ("+") then
      if count + 1 > 3 then some idx
      else findAnchor rest (idx + 1) (count + 1)
    else findAnchor rest (idx + 1) count

/-- `errors.UserExecutionError.details` (errors.py lines 516-544): `none` when
no stderr was captured; otherwise the non-empty stderr lines from the anchor
on, each written as `"\n:: " ++ line`. -/
def userExecutionDetails : Option String → Option String
  | none => none
  | some stderr =>
    let lines := pyNonEmptyLines stderr
    let tail :=
      match findAnchor lines.reverse 0 0 with
      | some idx => lines.drop (lines.length - idx)
      | none => lines
    some (String.join (tail.map (fun l => "\n:: " ++ l)))

/-- The `brief` attribute of each `PartsError` kind (non-`PartsError`
exceptions report their message). -/
def PyErr.brief : PyErr → String
  | .pluginPull n => "Failed to run the pull script for part " ++ pyRepr n ++ "."
  | .pluginBuild n _ _ => "Failed to run the build script for part " ++ pyRepr n ++ "."
  | .scriptletRun n sn ec _ =>
      pyRepr sn ++ " in part " ++ pyRepr n ++ " failed with code " ++ toString ec ++ "."
  | .invalidControlAPICall n sn msg =>
      pyRepr sn ++ " in part " ++ pyRepr n ++
        " executed an invalid control API call: " ++ msg ++ "."
  | .otherParts b => b
  | .runtimeError m => m
  | .valueError m => m
  | .typeError m => m

/-- The `details` property of each `PartsError` kind: the trace view for the
two `UserExecutionError` subclasses, `None` for the others. -/
def PyErr.detailsView : PyErr → Option String
  | .pluginBuild _ _ stderr => userExecutionDetails stderr
  | .scriptletRun _ _ _ stderr => userExecutionDetails stderr
  | _ => none

/-- The `resolution` attribute of each `PartsError` kind. -/
def PyErr.resolution : PyErr → Option String
  | .pluginBuild _ g _ =>
      some ("Check the build output and verify the project can work with the "
        ++ pyRepr g ++ " plugin.")
  | .scriptletRun _ _ _ _ => some "Review the scriptlet and make sure it\x27s correct."
  | .invalidControlAPICall _ _ _ => some "Review the scriptlet and make sure it\x27s correct."
  | _ => none

/-- `errors.PartsError.__str__`: the brief, then the details and the
resolution when present and non-empty (Python truthiness), joined by
newlines. -/
def PyErr.pyStr (e : PyErr) : String :=
  let comps := [e.brief]
    ++ (match e.detailsView with
        | some d => if d ≠ "" then [d] else []
        | none => [])
    ++ (match e.resolution with
        | some r => if r ≠ "" then [r] else []
        | none => [])
  String.intercalate "\n" comps

/-! ## Data model of the step handler -/

/-- Modelled from the spec: `filesets.Fileset` (its module is an out-of-scope
collaborator file here) is a named, ordered pattern sequence tagged with a
default partition. -/
structure FilesetM where
  entries : List String
  name : String
  default_partition : String
deriving DecidableEq

/-- Modelled from the spec: the include patterns are the entries without a
leading `-`. -/
def FilesetM.includes (f : FilesetM) : List String :=
  f.entries.filter (fun e => ¬ pyStartsWith e ("-"))

/-- Modelled from the spec: the exclude patterns are the entries with a
leading `-`, the `-` stripped. -/
def FilesetM.excludes (f : FilesetM) : List String :=
  (f.entries.filter (fun e => pyStartsWith e ("-"))).map (fun e => e.drop 1)

/-- Modelled from the spec: `combine(other)` merges two filesets; when the
receiver includes nothing or everything, the other fileset\x27s patterns are
included, and excludes are unioned. -/
def FilesetM.combine (f other : FilesetM) : FilesetM :=
  if f.includes = [] ∨ f.includes = ["*"] then
    { f with entries := other.includes ++ f.excludes.map (fun e => "-" ++ e)
        ++ other.excludes.map (fun e => "-" ++ e) }
  else f

/-- The part spec fields the step handler reads (`Part.spec`): the stage and
prime filesets as pattern lists, and the permissions entries (opaque to the
handler, passed through to the migrator). -/
structure PartSpecM where
  stage_files : List String
  prime_files : List String
  permissions : List String

/-- The resolved directories and names of a `Part` consumed by the step
handler.  Directories are modelled as absolute path strings (`.absolute()` in
the source is the identity here). -/
structure PartM where
  name : String
  plugin_name : String
  part_run_dir : String
  part_src_subdir : String
  part_build_subdir : String
  part_install_dir : String
  part_install_dirs : String → String
  stage_dir : String
  prime_dir : String
  part_export_dir : String
  backstage_dir : String
  get_stage_dir : String → String
  get_prime_dir : String → String
  spec : PartSpecM

/-- The `StepInfo` fields the handler reads: the current step and the default
partition name. -/
structure StepInfoM where
  step : Step
  default_partition : String

/-- The plugin collaborator: ordered pull and build command lists. -/
structure PluginM where
  pullCommands : List String
  buildCommands : List String

/-- Out-of-scope collaborator behaviour, supplied as oracles so theorems hold
for every behaviour: the optional source handler pull outcome, the fileset
resolver, the file migrator, and the child-process outcome of the pull and
build scripts. -/
structure CollabM where
  sourcePull : Option (Except PyErr Unit)
  migratableFilesets : FilesetM → String → String → Option String → List String × List String
  migrateFiles : List String → List String → String → String → List String × List String
  pullProc : Except ProcResult Unit
  buildProc : Except ProcResult Unit

/-- One step handler invocation (`StepHandler.__init__` fields). -/
structure HandlerM where
  part : PartM
  step_info : StepInfoM
  plugin : PluginM
  collabs : CollabM
  env : String
  partitions : Option (List String)

/-- Python truthiness of the `partitions` argument (`None` and `[]` are
falsy). -/
def truthyPartitions : Option (List String) → Bool
  | none => false
  | some l => l ≠ []

/-- Per-partition contents record: `StepPartitionContents` or its subclass
`StagePartitionContents` (step_handler.py lines 48-61). -/
inductive PartContents
  | step (files dirs : List String)
  | stage (files dirs backstage_files backstage_dirs : List String)
deriving DecidableEq

/-- The backstage file set of a contents record (empty for the base class). -/
def PartContents.backstageFiles : PartContents → List String
  | .step _ _ => []
  | .stage _ _ bf _ => bf

/-- The backstage directory set of a contents record. -/
def PartContents.backstageDirs : PartContents → List String
  | .step _ _ => []
  | .stage _ _ _ bd => bd

/-- `StepContents.partitions_contents`: a Python dict modelled as an
insertion-ordered association list. -/
abbrev StepContentsM := List (String × PartContents)

/-- Python dict assignment `d[k] = v`: update in place when the key exists,
append otherwise. -/
def dictSet {α : Type} (d : List (String × α)) (k : String) (v : α) :
    List (String × α) :=
  if k ∈ d.map Prod.fst then
    d.map (fun kv => if kv.1 = k then (k, v) else kv)
  else d ++ [(k, v)]

/-- `StepContents.__init__` (step_handler.py lines 72-84): keys are the given
partitions, or only the default partition when `None` or empty; values are
empty stage or step contents. -/
def stepContentsInit (partitions : Option (List String)) (stage : Bool) :
    StepContentsM :=
  let ps := match partitions with
    | none => [DEFAULT_PARTITION]
    | some l => if l = [] then [DEFAULT_PARTITION] else l
  ps.foldl (fun d p =>
    dictSet d p (if stage then .stage [] [] [] [] else .step [] [])) []

/-! ## Effects and the script runner -/

/-- Observable filesystem and process actions of one handler invocation. -/
inductive Effect
  | sourcePull
  | writeText (path content : String)
  | chmod (path : String) (mode : Nat)
  | runScript (scriptPath cwd : String) (envScript : Option String)
  | migrate (files dirs : List String) (srcdir destdir : String)
      (fixup : Bool) (permissions : List String)
deriving DecidableEq

/-- One `print(line, file=run_file)` call: append the line and a newline to
the open file buffer. -/
def pyPrint (buf line : String) : String := buf ++ line ++ "\n"

/-- The bytes `_create_and_run_script` writes to the script file
(step_handler.py lines 549-559), as the fold of its `print` calls. -/
def scriptFileContent (commands : List String) (envPath : Option String) :
    String :=
  let buf := pyPrint "" "#!/bin/bash"
  let buf := pyPrint buf "set -euo pipefail"
  let buf := match envPath with
    | some p => pyPrint buf ("source " ++ p)
    | none => buf
  let buf := pyPrint buf "set -x"
  commands.foldl pyPrint buf

/-- `_create_and_run_script` (step_handler.py lines 539-571): write the script
file, make it executable, run it; the child outcome is the `proc` oracle. -/
def createAndRunScript (proc : Except ProcResult Unit) (commands : List String)
    (scriptPath cwd : String) (envPath : Option String) :
    List Effect × Except ProcResult Unit :=
  ([.writeText scriptPath (scriptFileContent commands envPath),
    .chmod scriptPath 0o755,
    .runScript scriptPath cwd envPath], proc)

/-! ## Built-in step actions -/

/-- `StepHandler._builtin_pull` (step_handler.py lines 141-161): pull via the
source handler when attached, then run the plugin pull commands when
non-empty; a process error becomes `PluginPullError`. -/
def builtinPull (h : HandlerM) : List Effect × Except PyErr StepContentsM :=
  let (e1, r1) : List Effect × Except PyErr Unit :=
    match h.collabs.sourcePull with
    | some res => ([.sourcePull], res)
    | none => ([], .ok ())
  match r1 with
  | .error e => (e1, .error e)
  | .ok _ =>
    if h.plugin.pullCommands ≠ [] then
      let (e2, r2) := createAndRunScript h.collabs.pullProc h.plugin.pullCommands
        (h.part.part_run_dir ++ "/pull.sh") h.part.part_src_subdir none
      match r2 with
      | .ok _ => (e1 ++ e2, .ok (stepContentsInit none false))
      | .error _ => (e1 ++ e2, .error (.pluginPull h.part.name))
    else (e1, .ok (stepContentsInit none false))

/-- `StepHandler._builtin_overlay` (step_handler.py lines 163-165): no-op. -/
def builtinOverlay : List Effect × Except PyErr StepContentsM :=
  ([], .ok (stepContentsInit none false))

/-- `StepHandler._builtin_build` (step_handler.py lines 167-194): write the
environment script, run the plugin build commands with it sourced; a process
error becomes `PluginBuildError` carrying part, plugin and stderr. -/
def builtinBuild (h : HandlerM) : List Effect × Except PyErr StepContentsM :=
  let envPath := h.part.part_run_dir ++ "/environment.sh"
  let e0 : List Effect := [.writeText envPath h.env, .chmod envPath 0o644]
  let (e1, r) := createAndRunScript h.collabs.buildProc h.plugin.buildCommands
    (h.part.part_run_dir ++ "/build.sh") h.part.part_build_subdir (some envPath)
  match r with
  | .ok _ => (e0 ++ e1, .ok (stepContentsInit none false))
  | .error pe =>
    (e0 ++ e1, .error (.pluginBuild h.part.name h.part.plugin_name pe.stderr))

/-- The per-partition loop of `_builtin_stage` (step_handler.py lines
227-262), threading the contents dict, the pending backstage sets and the
effect trace.  The stage migration passes the pkg-config fixup; the backstage
migration, run only for the default partition, does not. -/
def stageLoop (h : HandlerM) (dp : String) (sf : FilesetM) :
    List String →
    StepContentsM × (List String × List String) × List Effect →
    StepContentsM × (List String × List String) × List Effect
  | [], acc => acc
  | partition :: rest, (sc, (bf, bd), effs) =>
    let (pf, pd) := h.collabs.migratableFilesets sf
      (h.part.part_install_dirs partition) dp (some partition)
    let (pf2, pd2) := h.collabs.migrateFiles pf pd
      (h.part.part_install_dirs partition) (h.part.get_stage_dir partition)
    let effs := effs ++ [.migrate pf pd (h.part.part_install_dirs partition)
      (h.part.get_stage_dir partition) true []]
    if partition = dp then
      let (bf2, bd2) := h.collabs.migrateFiles bf bd
        h.part.part_export_dir h.part.backstage_dir
      let effs := effs ++ [.migrate bf bd h.part.part_export_dir
        h.part.backstage_dir false []]
      stageLoop h dp sf rest
        (dictSet sc partition (.stage pf2 pd2 bf2 bd2), (bf2, bd2), effs)
    else
      stageLoop h dp sf rest
        (dictSet sc partition (.stage pf2 pd2 [] []), (bf, bd), effs)

/-- `StepHandler._builtin_stage` (step_handler.py lines 196-296). -/
def builtinStage (h : HandlerM) : List Effect × Except PyErr StepContentsM :=
  let dp := h.step_info.default_partition
  let stageFileset : FilesetM := ⟨h.part.spec.stage_files, "stage", dp⟩
  let sc0 := stepContentsInit none true
  if truthyPartitions h.partitions then
    let ps := h.partitions.getD []
    let (bf0, bd0) := h.collabs.migratableFilesets
      ⟨["(" ++ dp ++ ")/*"], "backstage", dp⟩ h.part.part_export_dir dp (some dp)
    let (sc, _, effs) := stageLoop h dp stageFileset ps (sc0, (bf0, bd0), [])
    (effs, .ok sc)
  else
    let (f0, d0) := h.collabs.migratableFilesets stageFileset
      h.part.part_install_dir DEFAULT_PARTITION none
    let (f1, d1) := h.collabs.migrateFiles f0 d0
      h.part.part_install_dir h.part.stage_dir
    let (bf0, bd0) := h.collabs.migratableFilesets
      ⟨["*"], "backstage", DEFAULT_PARTITION⟩ h.part.part_export_dir
      DEFAULT_PARTITION none
    let (bf1, bd1) := h.collabs.migrateFiles bf0 bd0
      h.part.part_export_dir h.part.backstage_dir
    ([.migrate f0 d0 h.part.part_install_dir h.part.stage_dir true [],
      .migrate bf0 bd0 h.part.part_export_dir h.part.backstage_dir false []],
     .ok (dictSet sc0 DEFAULT_PARTITION (.stage f1 d1 bf1 bd1)))

/-- The per-partition loop of `_builtin_prime` (step_handler.py lines
318-339). -/
def primeLoop (h : HandlerM) (dp : String) (pf : FilesetM) :
    List String → StepContentsM × List Effect → StepContentsM × List Effect
  | [], acc => acc
  | partition :: rest, (sc, effs) =>
    let (fs, ds) := h.collabs.migratableFilesets pf
      (h.part.part_install_dirs partition) dp (some partition)
    let srcdir := h.part.get_stage_dir partition
    let destdir := h.part.get_prime_dir partition
    let (fs2, ds2) := h.collabs.migrateFiles fs ds srcdir destdir
    primeLoop h dp pf rest
      (dictSet sc partition (.step fs2 ds2),
       effs ++ [.migrate fs ds srcdir destdir false h.part.spec.permissions])

/-- `StepHandler._builtin_prime` (step_handler.py lines 298-358). -/
def builtinPrime (h : HandlerM) : List Effect × Except PyErr StepContentsM :=
  let dp := h.step_info.default_partition
  let primeFileset0 : FilesetM := ⟨h.part.spec.prime_files, "prime", dp⟩
  let primeFileset :=
    if primeFileset0.entries = ["*"] ∨ primeFileset0.includes.length = 0 then
      primeFileset0.combine ⟨h.part.spec.stage_files, "stage", dp⟩
    else primeFileset0
  let sc0 := stepContentsInit none false
  if truthyPartitions h.partitions then
    let ps := h.partitions.getD []
    let (sc, effs) := primeLoop h dp primeFileset ps (sc0, [])
    (effs, .ok sc)
  else
    let (f0, d0) := h.collabs.migratableFilesets primeFileset
      h.part.part_install_dir DEFAULT_PARTITION none
    let (f1, d1) := h.collabs.migrateFiles f0 d0 h.part.stage_dir h.part.prime_dir
    ([.migrate f0 d0 h.part.stage_dir h.part.prime_dir false
        h.part.spec.permissions],
     .ok (dictSet sc0 DEFAULT_PARTITION (.step f1 d1)))

/-- `StepHandler.run_builtin` (step_handler.py lines 120-139): dispatch on the
current step of the step info. -/
def runBuiltin (h : HandlerM) : List Effect × Except PyErr StepContentsM :=
  match h.step_info.step with
  | .pull => builtinPull h
  | .overlay => builtinOverlay
  | .build => builtinBuild h
  | .stage => builtinStage h
  | .prime => builtinPrime h

/-- `StepHandler._execute_builtin_handler` (step_handler.py lines 526-536):
dispatch on the step given by the control call, discarding the contents. -/
def executeBuiltinHandler (h : HandlerM) (step : Step) :
    List Effect × Except PyErr Unit :=
  let (effs, r) :=
    match step with
    | .pull => builtinPull h
    | .overlay => builtinOverlay
    | .build => builtinBuild h
    | .stage => builtinStage h
    | .prime => builtinPrime h
  (effs, r.map (fun _ => ()))

/-! ## Control channel -/

/-- Modelled from the spec: the project-variable state behind
`StepInfo.set_project_var` / `get_project_var` (their module is out of scope
here), as a faithful key-value store. -/
abbrev ProjectVars := List (String × String)

/-- JSON values as decoded by `json.loads` on the control channel. -/
inductive Json
  | str (s : String)
  | num (n : Int)
  | boolean (b : Bool)
  | null
  | arr (elems : List Json)
  | obj (fields : List (String × Json))

/-- One control-channel request as received by the read callback: either a
payload `json.loads` rejects, or the decoded JSON value.  (The byte-level
decoding itself is the Python json library, a collaborator.) -/
inductive CtlPayload
  | malformed (raw : String)
  | parsed (j : Json)

/-- Key lookup in a decoded JSON object: `json.loads` keeps the last value of
a duplicated key. -/
def jsonLookup (fields : List (String × Json)) (k : String) : Option Json :=
  fields.reverse.lookup k

/-- Extract a Python `list[str]` from a JSON array, when every element is a
string. -/
def asStringList : List Json → Option (List String)
  | [] => some []
  | .str s :: rest => (asStringList rest).map (fun t => s :: t)
  | _ => none

/-- `StepHandler._process_api_commands` (step_handler.py lines 463-524),
returning the retval and the updated project variables, plus the effect trace
of a re-entered built-in.  The `set` path mirrors
`name, value = cmd_args[0].split("=")`: a split into more than two pieces is
an uncaught `ValueError` (too many values to unpack). -/
def processApiCommands (h : HandlerM) (vars : ProjectVars) (step : Step)
    (scriptletName : String) (cmdName : String) (cmdArgs : List String) :
    List Effect × Except PyErr (String × ProjectVars) :=
  let invalidCall (msg : String) : PyErr :=
    .invalidControlAPICall h.part.name scriptletName msg
  if cmdName = "default" then
    if cmdArgs.length > 0 then
      ([], .error (invalidCall ("invalid arguments to command " ++ pyRepr cmdName)))
    else
      let (effs, r) := executeBuiltinHandler h step
      match r with
      | .ok _ => (effs, .ok ("", vars))
      | .error e => (effs, .error e)
  else if cmdName = "set" then
    if cmdArgs.length ≠ 1 then
      ([], .error (invalidCall ("invalid arguments to command " ++ pyRepr cmdName)))
    else
      let arg := cmdArgs.headD ""
      if ¬ arg.data.contains '=' then
        ([], .error (invalidCall ("invalid arguments to command " ++ pyRepr cmdName
          ++ " (want key=value)")))
      else
        match pySplit arg '=' with
        | [name, value] => ([], .ok ("", dictSet vars name value))
        | _ => ([], .error (.valueError "too many values to unpack (expected 2)"))
  else if cmdName = "get" then
    if cmdArgs.length ≠ 1 then
      ([], .error (invalidCall ("invalid number of arguments to command "
        ++ pyRepr cmdName)))
    else
      let name := cmdArgs.headD ""
      match vars.lookup name with
      | some v => ([], .ok (v, vars))
      | none =>
        ([], .error (invalidCall ("project variable " ++ pyRepr name ++ " not set")))
  else
    ([], .error (invalidCall ("invalid command " ++ pyRepr cmdName)))

/-- `StepHandler._handle_control_api` (step_handler.py lines 438-461):
malformed JSON and a missing `function` or `args` key raise `RuntimeError`;
otherwise the command is dispatched.  Payloads that are not an object of a
string and an array of strings are collapsed to a `typeError` here (CPython
raises `TypeError` at varying later points for them; no claim reaches this
branch). -/
def handleControlApi (h : HandlerM) (vars : ProjectVars) (step : Step)
    (scriptletName : String) (payload : CtlPayload) :
    List Effect × Except PyErr (String × ProjectVars) :=
  match payload with
  | .malformed raw =>
    ([], .error (.runtimeError (pyRepr scriptletName
      ++ " scriptlet called a function with invalid json: " ++ raw)))
  | .parsed j =>
    match j with
    | .obj fields =>
      match jsonLookup fields "function" with
      | none =>
        ([], .error (.runtimeError (pyRepr scriptletName
          ++ " control call missing attribute " ++ pyRepr "function")))
      | some cmdName =>
        match jsonLookup fields "args" with
        | none =>
          ([], .error (.runtimeError (pyRepr scriptletName
            ++ " control call missing attribute " ++ pyRepr "args")))
        | some cmdArgs =>
          match cmdName, cmdArgs with
          | .str name, .arr elems =>
            match asStringList elems with
            | some args => processApiCommands h vars step scriptletName name args
            | none => ([], .error (.typeError "control call arguments must be strings"))
          | _, _ => ([], .error (.typeError "control call fields have invalid types"))
    | _ => ([], .error (.typeError "control call payload is not a JSON object"))

/-- Outcome of one pass of the selector read callback: a reply sent on the
connection with the server still serving, or an exception unwinding out of
the server loop (aborting the scriptlet run). -/
inductive ReadOutcome
  | reply (msg : String) (vars : ProjectVars) (effects : List Effect)
  | fatal (e : PyErr) (effects : List Effect)
deriving DecidableEq

/-- The `read` callback of `StepHandler._ctl_server_selector`
(step_handler.py lines 415-432), for one non-empty received request: `OK`
replies on success, `PluginBuildError` re-raised, other `PartsError`s sent
back as `ERR`, anything else propagating. -/
def ctlRead (h : HandlerM) (vars : ProjectVars) (step : Step)
    (scriptletName : String) (payload : CtlPayload) : ReadOutcome :=
  match handleControlApi h vars step scriptletName payload with
  | (effs, .ok (retval, vars2)) =>
    .reply (if retval ≠ "" then "OK " ++ retval ++ "\n" else "OK\n") vars2 effs
  | (effs, .error e) =>
    if e.isPluginBuildError then .fatal e effs
    else if e.isPartsError then .reply ("ERR " ++ e.pyStr ++ "\n") vars effs
    else .fatal e effs

/-! ## Derived views, spec-side renderings and sample fixtures -/

-- Decidable equality of `Except` results, for evaluating outcomes at
-- concrete inputs.
deriving instance DecidableEq for Except

/-- Each command on its own line, in order (the spec\x27s rendering of the
script body). -/
def joinLines (commands : List String) : String :=
  commands.foldr (fun c acc => c ++ "\n" ++ acc) ""

/-- The details view as claim C5 words it: the last three shell-trace lines
of the captured stderr (lines beginning with `+`), each on its own line
prefixed with `:: `. -/
def lastThreeTraceLinesView (stderr : String) : String :=
  let traces := (pyNonEmptyLines stderr).filter (fun l => pyStartsWith l ("+"))
  String.join ((traces.drop (traces.length - 3)).map (fun l => "\n:: " ++ l))

/-- Whether an effect is a file migration into the given destination
directory. -/
def migratesTo (dest : String) : Effect → Bool
  | .migrate _ _ _ d _ _ => d = dest
  | _ => false

/-- A schema-conforming control request: a JSON object with a string
`function` and an array-of-strings `args`. -/
def mkCtlRequest (name : String) (args : List String) : CtlPayload :=
  .parsed (.obj [("function", Json.str name), ("args", Json.arr (args.map Json.str))])

/-- The keys of a contents dict. -/
def dictKeys {α : Type} (d : List (String × α)) : List String := d.map Prod.fst

/-- A sample part for witnesses: name `foo`, plugin `nil`, simple absolute
directories. -/
def samplePart : PartM :=
  ⟨"foo", "nil", "/run", "/src", "/bld", "/inst", (fun p => "/inst/" ++ p),
   "/stage", "/prime", "/export", "/backstage",
   (fun _ => "/stage"), (fun _ => "/prime"), ⟨["*"], [], []⟩⟩

/-- Sample collaborators: no source handler, trivial resolver, identity
migrator, both child processes succeed. -/
def sampleCollabs : CollabM :=
  ⟨none, (fun _ _ _ _ => ([], [])), (fun f d _ _ => (f, d)), .ok (), .ok ()⟩

/-- A sample handler on the BUILD step, no partitions. -/
def sampleHandler : HandlerM :=
  ⟨samplePart, ⟨.build, "default"⟩, ⟨[], ["echo hi"]⟩, sampleCollabs,
   "export A=1\n", none⟩

/-- The sample handler with a failing build child process. -/
def sampleHandlerBuildFail : HandlerM :=
  ⟨samplePart, ⟨.build, "default"⟩, ⟨[], ["echo hi"]⟩,
   ⟨none, (fun _ _ _ _ => ([], [])), (fun f d _ _ => (f, d)), .ok (),
    .error ⟨2, some "boom"⟩⟩,
   "export A=1\n", none⟩

/-- The sample handler on the PULL step with pull commands and a failing pull
child process. -/
def sampleHandlerPullFail : HandlerM :=
  ⟨samplePart, ⟨.pull, "default"⟩, ⟨["fetch"], []⟩,
   ⟨none, (fun _ _ _ _ => ([], [])), (fun f d _ _ => (f, d)),
    .error ⟨1, some "perr"⟩, .ok ()⟩,
   "export A=1\n", none⟩

/-- The sample handler on the PULL step with two requested partitions. -/
def sampleHandlerPullPartitions : HandlerM :=
  ⟨samplePart, ⟨.pull, "default"⟩, ⟨[], []⟩, sampleCollabs,
   "export A=1\n", some ["default", "kernel"]⟩

/-- The sample handler on the STAGE step with two requested partitions. -/
def sampleHandlerStage : HandlerM :=
  ⟨samplePart, ⟨.stage, "default"⟩, ⟨[], []⟩,
   ⟨none, (fun _ _ _ _ => (["f"], ["d"])), (fun f d _ _ => (f, d)), .ok (), .ok ()⟩,
   "export A=1\n", some ["default", "kernel"]⟩

/-! ## Supporting lemmas -/

/-- Setting a key makes it a member of the keys; nothing else changes the key
set. -/
theorem mem_keys_dictSet {α : Type} (d : List (String × α)) (k : String)
    (v : α) (m : String) :
    m ∈ (dictSet d k v).map Prod.fst ↔ m = k ∨ m ∈ d.map Prod.fst := by
  unfold dictSet
  by_cases hk : k ∈ d.map Prod.fst
  · rw [if_pos hk]
    rw [List.map_map]
    have : d.map (Prod.fst ∘ fun kv => if kv.1 = k then (k, v) else kv)
        = d.map Prod.fst := by
      apply List.map_congr_left
      intro kv _
      by_cases hkv : kv.1 = k
      · simp [hkv]
      · simp [hkv]
    rw [this]
    constructor
    · exact Or.inr
    · rintro (rfl | hm)
      · exact hk
      · exact hm
  · rw [if_neg hk]
    simp [List.map_append, or_comm]

/-- Membership in an updated dict: an entry is an old entry or the new
binding. -/
theorem mem_dictSet {α : Type} {d : List (String × α)} {k m : String}
    {v c : α} (hm : (m, c) ∈ dictSet d k v) :
    (m, c) ∈ d ∨ ((m, c) = (k, v)) := by
  unfold dictSet at hm
  by_cases hk : k ∈ d.map Prod.fst
  · rw [if_pos hk] at hm
    obtain ⟨kv, hkv, he⟩ := List.mem_map.mp hm
    by_cases h1 : kv.1 = k
    · rw [if_pos h1] at he
      exact Or.inr he.symm
    · rw [if_neg h1] at he
      exact Or.inl (he ▸ hkv)
  · rw [if_neg hk] at hm
    rcases List.mem_append.mp hm with h | h
    · exact Or.inl h
    · exact Or.inr (List.mem_singleton.mp h)

/-- Looking up a just-set key returns the value just set. -/
theorem lookup_dictSet {α : Type} (d : List (String × α)) (k : String)
    (v : α) : (dictSet d k v).lookup k = some v := by
  unfold dictSet
  by_cases hk : k ∈ d.map Prod.fst
  · rw [if_pos hk]
    induction d with
    | nil => simp at hk
    | cons kv rest ih =>
      rw [List.map_cons]
      by_cases h1 : kv.1 = k
      · rw [if_pos h1]
        simp [List.lookup]
      · rw [if_neg h1]
        have hk2 : k ∈ rest.map Prod.fst := by
          rcases List.mem_map.mp hk with ⟨x, hx, he⟩
          rcases List.mem_cons.mp hx with rfl | hx2
          · exact absurd he h1
          · exact List.mem_map.mpr ⟨x, hx2, he⟩
        have hbeq : (k == kv.1) = false :=
          beq_eq_false_iff_ne.mpr (fun he => h1 he.symm)
        simp only [List.lookup, hbeq]
        exact ih hk2
  · rw [if_neg hk]
    induction d with
    | nil => simp [List.lookup]
    | cons kv rest ih =>
      have h1 : kv.1 ≠ k := fun he =>
        hk (List.mem_map.mpr ⟨kv, List.mem_cons_self kv rest, he⟩)
      have hk2 : k ∉ rest.map Prod.fst := by
        intro hm
        apply hk
        rw [List.map_cons]
        exact List.mem_cons_of_mem _ hm
      have hbeq : (k == kv.1) = false :=
        beq_eq_false_iff_ne.mpr (fun he => h1 he.symm)
      simp only [List.cons_append, List.lookup, hbeq]
      exact ih hk2

/-- Splitting a list free of the separator yields the list itself. -/
theorem splitChar_of_not_mem {sep : Char} {l : List Char} (h : sep ∉ l) :
    splitChar sep l = [l] := by
  induction l with
  | nil => rfl
  | cons c cs ih =>
    have hc : c ≠ sep := fun he => h (he ▸ List.mem_cons_self c cs)
    have hcs : sep ∉ cs := fun hm => h (List.mem_cons_of_mem c hm)
    rw [splitChar, ih hcs]
    simp [hc]

/-- Splitting `K ++ sep :: V` with the separator absent from `K` and `V`
yields exactly the two pieces. -/
theorem splitChar_append_sep {sep : Char} {K V : List Char} (hK : sep ∉ K)
    (hV : sep ∉ V) : splitChar sep (K ++ sep :: V) = [K, V] := by
  induction K with
  | nil =>
    rw [List.nil_append, splitChar, splitChar_of_not_mem hV]
    simp
  | cons c K2 ih =>
    have hc : c ≠ sep := fun he => hK (he ▸ List.mem_cons_self c K2)
    have hK2 : sep ∉ K2 := fun hm => hK (List.mem_cons_of_mem c hm)
    rw [List.cons_append, splitChar, ih hK2]
    simp [hc]

/-- The command fold of the script writer appends one line per command. -/
theorem foldl_pyPrint (commands : List String) (buf : String) :
    commands.foldl pyPrint buf = buf ++ joinLines commands := by
  induction commands generalizing buf with
  | nil => simp [joinLines]
  | cons c cs ih =>
    rw [List.foldl_cons, ih]
    simp [pyPrint, joinLines, String.append_assoc]

/-! ## Claim theorems -/

/-- C6: for every command list and optional environment-script path, the
script runner writes a script file whose bytes are exactly
`#!/bin/bash\nset -euo pipefail\n`, then `source <env>\n` only when an
environment script is given, then `set -x\n`, then each command on its own
line in order; and it sets the script file mode to `0o755`. -/
theorem createAndRunScript_writes_prologue_and_commands
    (proc : Except ProcResult Unit) (commands : List String)
    (scriptPath cwd : String) (envPath : Option String) :
    createAndRunScript proc commands scriptPath cwd envPath =
      ([.writeText scriptPath
          ("#!/bin/bash\nset -euo pipefail\n"
            ++ (match envPath with
                | some p => "source " ++ p ++ "\n"
                | none => "")
            ++ "set -x\n" ++ joinLines commands),
        .chmod scriptPath 0o755,
        .runScript scriptPath cwd envPath], proc) := by
  unfold createAndRunScript
  cases envPath with
  | none =>
    rw [scriptFileContent]
    simp [foldl_pyPrint, pyPrint, String.append_assoc]
  | some p =>
    rw [scriptFileContent]
    simp [foldl_pyPrint, pyPrint, String.append_assoc]

/-- C7: the BUILD built-in writes the caller\x27s env string verbatim to
`<part_run_dir>/environment.sh` with mode `0o644`, runs the plugin build
commands at `<part_run_dir>/build.sh` with that environment script sourced
and cwd `<part_build_subdir>`, and on a process error raises a plugin-build
error carrying the part name, the plugin name and the captured stderr. -/
theorem builtinBuild_env_script_and_error (h : HandlerM) :
    (builtinBuild h).1 =
      [.writeText (h.part.part_run_dir ++ "/environment.sh") h.env,
       .chmod (h.part.part_run_dir ++ "/environment.sh") 0o644,
       .writeText (h.part.part_run_dir ++ "/build.sh")
         (scriptFileContent h.plugin.buildCommands
           (some (h.part.part_run_dir ++ "/environment.sh"))),
       .chmod (h.part.part_run_dir ++ "/build.sh") 0o755,
       .runScript (h.part.part_run_dir ++ "/build.sh") h.part.part_build_subdir
         (some (h.part.part_run_dir ++ "/environment.sh"))]
    ∧ (∀ pe, h.collabs.buildProc = .error pe →
        (builtinBuild h).2
          = .error (.pluginBuild h.part.name h.part.plugin_name pe.stderr))
    ∧ (h.collabs.buildProc = .ok () →
        (builtinBuild h).2 = .ok (stepContentsInit none false)) := by
  unfold builtinBuild createAndRunScript
  refine ⟨?_, ?_, ?_⟩
  · cases hp : h.collabs.buildProc <;> simp
  · intro pe hpe
    rw [hpe]
  · intro hok
    rw [hok]

/-- C7 witness: the sample handler with a failing build child process raises
the plugin-build error with its part name, plugin name and stderr. -/
theorem builtinBuild_env_script_and_error_witness :
    (builtinBuild sampleHandlerBuildFail).2
      = .error (.pluginBuild "foo" "nil" (some "boom")) :=
  (builtinBuild_env_script_and_error sampleHandlerBuildFail).2.1
    ⟨2, some "boom"⟩ rfl

/-- When the anchor search fails, the list holds at most `3 - c` trace
lines. -/
theorem findAnchor_none {l : List String} {i c : Nat} (hc : c ≤ 3)
    (h : findAnchor l i c = none) :
    l.countP (fun s => pyStartsWith s ("+")) + c ≤ 3 := by
  induction l generalizing i c with
  | nil => simpa using hc
  | cons x xs ih =>
    rw [findAnchor] at h
    by_cases hx : pyStartsWith x ("+")
    · rw [if_pos hx] at h
      by_cases h4 : c + 1 > 3
      · rw [if_pos h4] at h
        exact Option.noConfusion h
      · rw [if_neg h4] at h
        have := ih (by omega) h
        rw [List.countP_cons]
        simp only [hx, if_pos]
        omega
    · rw [if_neg hx] at h
      have := ih hc h
      rw [List.countP_cons]
      simp only [hx]
      simp only [if_false, Bool.false_eq_true]
      omega

/-- When the anchor search returns an index, the reversed line list splits at
a trace line preceded by exactly `3 - c` trace lines. -/
theorem findAnchor_some {l : List String} {i c r : Nat} (hc : c ≤ 3)
    (h : findAnchor l i c = some r) :
    ∃ pre t rest, l = pre ++ t :: rest ∧ r = i + pre.length
      ∧ pyStartsWith t ("+") = true
      ∧ pre.countP (fun s => pyStartsWith s ("+")) + c = 3 := by
  induction l generalizing i c with
  | nil => exact Option.noConfusion h
  | cons x xs ih =>
    rw [findAnchor] at h
    by_cases hx : pyStartsWith x ("+")
    · rw [if_pos hx] at h
      by_cases h4 : c + 1 > 3
      · rw [if_pos h4] at h
        have hc3 : c = 3 := by omega
        refine ⟨[], x, xs, rfl, ?_, hx, ?_⟩
        · simpa using (Option.some.inj h).symm
        · simpa using hc3
      · rw [if_neg h4] at h
        obtain ⟨pre, t, rest, hsplit, hr, ht, hcount⟩ := ih (by omega) h
        refine ⟨x :: pre, t, rest, by rw [hsplit, List.cons_append], ?_, ht, ?_⟩
        · simp only [List.length_cons]
          omega
        · rw [List.countP_cons]
          simp only [hx, if_pos]
          omega
    · rw [if_neg hx] at h
      obtain ⟨pre, t, rest, hsplit, hr, ht, hcount⟩ := ih hc h
      refine ⟨x :: pre, t, rest, by rw [hsplit, List.cons_append], ?_, ht, ?_⟩
      · simp only [List.length_cons]
        omega
      · rw [List.countP_cons]
        simp only [hx]
        simp only [if_false, Bool.false_eq_true]
        omega

/-- C5 (amended): for plugin-build and scriptlet-run errors with captured
stderr, the details view consists of every non-empty stderr line strictly
after the fourth-from-last shell-trace line (all non-empty lines when there
are at most three trace lines), each on its own line prefixed with `:: `. -/
theorem userExecutionDetails_tail_after_fourth_trace (pn gn sn : String)
    (ec : Int) (stderr : String) :
    ∃ tail, tail <:+ pyNonEmptyLines stderr
      ∧ tail.countP (fun l => pyStartsWith l ("+")) ≤ 3
      ∧ (tail = pyNonEmptyLines stderr ∨
          ∃ pre t, pyNonEmptyLines stderr = pre ++ t :: tail
            ∧ pyStartsWith t ("+") = true
            ∧ tail.countP (fun l => pyStartsWith l ("+")) = 3)
      ∧ PyErr.detailsView (.pluginBuild pn gn (some stderr))
          = some (String.join (tail.map (fun l => "\n:: " ++ l)))
      ∧ PyErr.detailsView (.scriptletRun pn sn ec (some stderr))
          = some (String.join (tail.map (fun l => "\n:: " ++ l))) := by
  have hdef : ∀ e : PyErr, e = .pluginBuild pn gn (some stderr)
      ∨ e = .scriptletRun pn sn ec (some stderr) →
      PyErr.detailsView e = userExecutionDetails (some stderr) := by
    rintro e (rfl | rfl) <;> rfl
  cases hA : findAnchor (pyNonEmptyLines stderr).reverse 0 0 with
  | none =>
    refine ⟨pyNonEmptyLines stderr, List.suffix_refl _, ?_, Or.inl rfl, ?_, ?_⟩
    · have := findAnchor_none (by omega) hA
      rw [List.countP_reverse] at this
      omega
    · rw [hdef _ (Or.inl rfl)]
      simp only [userExecutionDetails, hA]
    · rw [hdef _ (Or.inr rfl)]
      simp only [userExecutionDetails, hA]
  | some idx =>
    obtain ⟨pre, t, rest, hsplit, hr, ht, hcount⟩ :=
      findAnchor_some (by omega) hA
    have hcount3 : pre.countP (fun s => pyStartsWith s ("+")) = 3 := by omega
    have hlines : pyNonEmptyLines stderr
        = (rest.reverse ++ [t]) ++ pre.reverse := by
      have h0 : (pyNonEmptyLines stderr).reverse.reverse
          = pyNonEmptyLines stderr := List.reverse_reverse _
      rw [← h0, hsplit]
      simp [List.reverse_append]
    have hlen : (pyNonEmptyLines stderr).length
        = pre.length + (rest.length + 1) := by
      have : (pyNonEmptyLines stderr).reverse.length
          = (pre ++ t :: rest).length := by rw [hsplit]
      simp only [List.length_reverse] at this
      simp only [List.length_append, List.length_cons] at this
      omega
    have hdrop : (pyNonEmptyLines stderr).drop
        ((pyNonEmptyLines stderr).length - idx) = pre.reverse := by
      have hidx : idx = pre.length := by omega
      have hsub : (pyNonEmptyLines stderr).length - idx
          = (rest.reverse ++ [t]).length := by
        simp only [List.length_append, List.length_reverse,
          List.length_singleton]
        omega
      rw [hsub, hlines, List.drop_left]
    refine ⟨pre.reverse, ⟨rest.reverse ++ [t], hlines.symm⟩, ?_, ?_, ?_, ?_⟩
    · rw [List.countP_reverse]
      omega
    · refine Or.inr ⟨rest.reverse, t, ?_, ht, ?_⟩
      · rw [hlines]
        simp [List.append_assoc]
      · rw [List.countP_reverse]
        exact hcount3
    · rw [hdef _ (Or.inl rfl)]
      simp only [userExecutionDetails, hA, hdrop]
    · rw [hdef _ (Or.inr rfl)]
      simp only [userExecutionDetails, hA, hdrop]

/-- C5 counterexample: for the stderr `+a\n+b\nx\n+c\n+d\n` the details view
is not the rendering of only the last three trace lines (it also shows the
non-trace line `x` between them). -/
theorem userExecutionDetails_not_last_three_traces :
    PyErr.detailsView (.pluginBuild ("p") ("g") (some "+a\n+b\nx\n+c\n+d\n"))
      ≠ some (lastThreeTraceLinesView "+a\n+b\nx\n+c\n+d\n") := by decide

/-- C1 (amended): for every key `K` and value `V` neither of which contains
`=`, a `set` control call with argument `K=V` succeeds with no return value,
and a following `get` control call with argument `K` returns exactly `V`. -/
theorem set_then_get_roundtrip (h : HandlerM) (vars : ProjectVars)
    (step : Step) (sn K V : String) (hK : '=' ∉ K.data) (hV : '=' ∉ V.data) :
    ∃ vars2,
      (processApiCommands h vars step sn "set" [K ++ "=" ++ V]).2
        = .ok ("", vars2)
      ∧ (processApiCommands h vars2 step sn "get" [K]).2 = .ok (V, vars2) := by
  have heq : ("=" : String).data = ['='] := rfl
  have hdata : (K ++ "=" ++ V).data = K.data ++ '=' :: V.data := by
    rw [String.data_append, String.data_append, heq]
    simp
  have hmem : (K ++ "=" ++ V).data.contains '=' = true := by
    rw [hdata]
    simp
  have hsplit : pySplit (K ++ "=" ++ V) '=' = [K, V] := by
    rw [pySplit, hdata, splitChar_append_sep hK hV]
    rfl
  refine ⟨dictSet vars K V, ?_, ?_⟩
  · unfold processApiCommands
    simp [hmem, hsplit]
  · unfold processApiCommands
    simp [lookup_dictSet]

/-- C1 witness: setting `ver=1.2.3` then getting `ver` returns `1.2.3`. -/
theorem set_then_get_roundtrip_witness :
    ∃ vars2,
      (processApiCommands sampleHandler [] .build "ovr" "set"
        ["ver" ++ "=" ++ "1.2.3"]).2 = .ok ("", vars2)
      ∧ (processApiCommands sampleHandler vars2 .build "ovr" "get" ["ver"]).2
          = .ok ("1.2.3", vars2) :=
  set_then_get_roundtrip sampleHandler [] .build "ovr" "ver" "1.2.3"
    (by decide) (by decide)

/-- C1 counterexample: for the key `v` and the value `1=2` (which contains
`=`) the `set` call does not succeed at all: the tuple unpacking of the
three-way split raises an uncaught `ValueError`, so no value can be read
back. -/
theorem set_then_get_roundtrip_counterexample :
    ¬ ∃ vars2,
      (processApiCommands sampleHandler [] .build "ovr" "set"
        ["v" ++ "=" ++ "1=2"]).2 = .ok ("", vars2)
      ∧ (processApiCommands sampleHandler vars2 .build "ovr" "get" ["v"]).2
          = .ok ("1=2", vars2) := by
  rintro ⟨vars2, h1, -⟩
  have h2 : (processApiCommands sampleHandler [] .build "ovr" "set"
      ["v" ++ "=" ++ "1=2"]).2
      = .error (.valueError "too many values to unpack (expected 2)") := by
    decide
  rw [h2] at h1
  exact Except.noConfusion h1

/-- C10: a successful `get` whose project-variable value is the empty string
is answered with exactly `OK\n`, and any successful command with no return
value is answered with exactly the same bytes `OK\n`, so the two replies are
indistinguishable to the scriptlet. -/
theorem get_empty_value_replies_bare_ok (h : HandlerM) (vars : ProjectVars)
    (step : Step) (sn K : String) (hlook : vars.lookup K = some "") :
    ctlRead h vars step sn (mkCtlRequest "get" [K]) = .reply "OK\n" vars []
    ∧ ∀ payload effs vars2,
        handleControlApi h vars step sn payload = (effs, .ok ("", vars2)) →
        ctlRead h vars step sn payload = .reply "OK\n" vars2 effs := by
  constructor
  · rw [ctlRead]
    have : handleControlApi h vars step sn (mkCtlRequest "get" [K])
        = (processApiCommands h vars step sn "get" [K]) := by
      rw [mkCtlRequest, handleControlApi]
      rfl
    rw [this]
    unfold processApiCommands
    simp [hlook]
  · intro payload effs vars2 hca
    rw [ctlRead, hca]
    simp

/-- Arrays of strings decode to the corresponding Python `list[str]`. -/
theorem asStringList_map_str (args : List String) :
    asStringList (args.map Json.str) = some args := by
  induction args with
  | nil => rfl
  | cons a rest ih => simp [asStringList, ih]

/-- A schema-conforming request decodes to its command name and arguments. -/
theorem handleControlApi_mkCtlRequest (h : HandlerM) (vars : ProjectVars)
    (step : Step) (sn name : String) (args : List String) :
    handleControlApi h vars step sn (mkCtlRequest name args)
      = processApiCommands h vars step sn name args := by
  have hf : jsonLookup
      [("function", Json.str name), ("args", Json.arr (args.map Json.str))]
      "function" = some (Json.str name) := rfl
  have ha : jsonLookup
      [("function", Json.str name), ("args", Json.arr (args.map Json.str))]
      "args" = some (Json.arr (args.map Json.str)) := rfl
  simp only [mkCtlRequest, handleControlApi, hf, ha, asStringList_map_str]

/-- C4: a request that is not valid JSON, or whose JSON object misses the
`function` or `args` key, raises a fatal `RuntimeError` that aborts the
scriptlet run; an unknown command name, a wrong argument count for
`default` / `set` / `get`, and a `set` argument without `=` are recoverable:
the server replies `ERR <message>\n` and keeps serving. -/
theorem control_api_fatal_vs_recoverable (h : HandlerM) (vars : ProjectVars)
    (step : Step) (sn : String) :
    (∀ raw, ctlRead h vars step sn (.malformed raw)
        = .fatal (.runtimeError (pyRepr sn
            ++ " scriptlet called a function with invalid json: " ++ raw)) [])
    ∧ (∀ fields, jsonLookup fields "function" = none →
        ctlRead h vars step sn (.parsed (.obj fields))
          = .fatal (.runtimeError (pyRepr sn
              ++ " control call missing attribute " ++ pyRepr "function")) [])
    ∧ (∀ fields c, jsonLookup fields "function" = some c →
        jsonLookup fields "args" = none →
        ctlRead h vars step sn (.parsed (.obj fields))
          = .fatal (.runtimeError (pyRepr sn
              ++ " control call missing attribute " ++ pyRepr "args")) [])
    ∧ (∀ name args, name ≠ "default" → name ≠ "set" → name ≠ "get" →
        ctlRead h vars step sn (mkCtlRequest name args)
          = .reply ("ERR " ++ (PyErr.invalidControlAPICall h.part.name sn
              ("invalid command " ++ pyRepr name)).pyStr ++ "\n") vars [])
    ∧ (∀ args, args ≠ [] →
        ctlRead h vars step sn (mkCtlRequest "default" args)
          = .reply ("ERR " ++ (PyErr.invalidControlAPICall h.part.name sn
              ("invalid arguments to command " ++ pyRepr "default")).pyStr
              ++ "\n") vars [])
    ∧ (∀ args, args.length ≠ 1 →
        ctlRead h vars step sn (mkCtlRequest "set" args)
          = .reply ("ERR " ++ (PyErr.invalidControlAPICall h.part.name sn
              ("invalid arguments to command " ++ pyRepr "set")).pyStr
              ++ "\n") vars [])
    ∧ (∀ arg, '=' ∉ arg.data →
        ctlRead h vars step sn (mkCtlRequest "set" [arg])
          = .reply ("ERR " ++ (PyErr.invalidControlAPICall h.part.name sn
              ("invalid arguments to command " ++ pyRepr "set"
                ++ " (want key=value)")).pyStr ++ "\n") vars [])
    ∧ (∀ args, args.length ≠ 1 →
        ctlRead h vars step sn (mkCtlRequest "get" args)
          = .reply ("ERR " ++ (PyErr.invalidControlAPICall h.part.name sn
              ("invalid number of arguments to command "
                ++ pyRepr "get")).pyStr ++ "\n") vars []) := by
  refine ⟨?_, ?_, ?_, ?_, ?_, ?_, ?_, ?_⟩
  · intro raw
    rw [ctlRead]
    rfl
  · intro fields hf
    rw [ctlRead]
    simp only [handleControlApi, hf]
    rfl
  · intro fields c hf ha
    rw [ctlRead]
    simp only [handleControlApi, hf, ha]
    rfl
  · intro name args h1 h2 h3
    rw [ctlRead, handleControlApi_mkCtlRequest]
    unfold processApiCommands
    simp [h1, h2, h3, PyErr.isPluginBuildError, PyErr.isPartsError]
  · intro args hargs
    rw [ctlRead, handleControlApi_mkCtlRequest]
    unfold processApiCommands
    have : 0 < args.length := List.length_pos.mpr hargs
    simp [this, PyErr.isPluginBuildError, PyErr.isPartsError]
  · intro args hargs
    rw [ctlRead, handleControlApi_mkCtlRequest]
    unfold processApiCommands
    simp [hargs, PyErr.isPluginBuildError, PyErr.isPartsError]
  · intro arg harg
    rw [ctlRead, handleControlApi_mkCtlRequest]
    unfold processApiCommands
    simp [harg, PyErr.isPluginBuildError, PyErr.isPartsError]
  · intro args hargs
    rw [ctlRead, handleControlApi_mkCtlRequest]
    unfold processApiCommands
    simp [hargs, PyErr.isPluginBuildError, PyErr.isPartsError]

/-- C4 witness: a malformed payload aborts the run; an unknown command is
replied as `ERR` with the server still serving. -/
theorem control_api_fatal_vs_recoverable_witness :
    ctlRead sampleHandler [] .build "ovr" (.malformed "oops")
      = .fatal (.runtimeError (pyRepr "ovr"
          ++ " scriptlet called a function with invalid json: " ++ "oops")) []
    ∧ ctlRead sampleHandler [] .build "ovr" (mkCtlRequest "frob" [])
      = .reply ("ERR " ++ (PyErr.invalidControlAPICall "foo" "ovr"
          ("invalid command " ++ pyRepr "frob")).pyStr ++ "\n") [] [] :=
  ⟨(control_api_fatal_vs_recoverable sampleHandler [] .build "ovr").1 "oops",
   (control_api_fatal_vs_recoverable sampleHandler [] .build "ovr").2.2.2.1
     "frob" [] (by decide) (by decide) (by decide)⟩

/-- C3: when the `default` control call during a BUILD step makes the
built-in build raise a plugin-build error, that error unwinds out of the
server read callback (no `ERR` reply is sent), aborting the scriptlet run. -/
theorem default_build_error_propagates (h : HandlerM) (vars : ProjectVars)
    (sn : String) (pe : ProcResult)
    (hproc : h.collabs.buildProc = .error pe) :
    ∃ effs, ctlRead h vars .build sn (mkCtlRequest "default" [])
      = .fatal (.pluginBuild h.part.name h.part.plugin_name pe.stderr) effs := by
  refine ⟨[.writeText (h.part.part_run_dir ++ "/environment.sh") h.env,
    .chmod (h.part.part_run_dir ++ "/environment.sh") 0o644,
    .writeText (h.part.part_run_dir ++ "/build.sh")
      (scriptFileContent h.plugin.buildCommands
        (some (h.part.part_run_dir ++ "/environment.sh"))),
    .chmod (h.part.part_run_dir ++ "/build.sh") 0o755,
    .runScript (h.part.part_run_dir ++ "/build.sh") h.part.part_build_subdir
      (some (h.part.part_run_dir ++ "/environment.sh"))], ?_⟩
  rw [ctlRead, handleControlApi_mkCtlRequest]
  unfold processApiCommands executeBuiltinHandler builtinBuild
    createAndRunScript
  simp [hproc, Except.map, PyErr.isPluginBuildError]

/-- C3 witness: concrete failing build process during a scriptlet `default`
call. -/
theorem default_build_error_propagates_witness :
    ∃ effs, ctlRead sampleHandlerBuildFail [] .build "ovr"
        (mkCtlRequest "default" [])
      = .fatal (.pluginBuild "foo" "nil" (some "boom")) effs :=
  default_build_error_propagates sampleHandlerBuildFail [] "ovr"
    ⟨2, some "boom"⟩ rfl

/-- C9: when the `default` control call during a PULL step makes the
built-in pull raise a plugin-pull error — a `PartsError` that is not a
plugin-build error — the server replies `ERR <message>\n` and keeps serving
instead of aborting the scriptlet run. -/
theorem default_pull_error_replies_err (h : HandlerM) (vars : ProjectVars)
    (sn : String) (pe : ProcResult)
    (hsp : h.collabs.sourcePull = none ∨ h.collabs.sourcePull = some (.ok ()))
    (hcmds : h.plugin.pullCommands ≠ [])
    (hproc : h.collabs.pullProc = .error pe) :
    (PyErr.pluginPull h.part.name).isPartsError = true
    ∧ (PyErr.pluginPull h.part.name).isPluginBuildError = false
    ∧ ∃ effs, ctlRead h vars .pull sn (mkCtlRequest "default" [])
        = .reply ("ERR " ++ (PyErr.pluginPull h.part.name).pyStr ++ "\n")
            vars effs := by
  refine ⟨rfl, rfl, ?_⟩
  rcases hsp with hsp | hsp
  · refine ⟨[.writeText (h.part.part_run_dir ++ "/pull.sh")
        (scriptFileContent h.plugin.pullCommands none),
      .chmod (h.part.part_run_dir ++ "/pull.sh") 0o755,
      .runScript (h.part.part_run_dir ++ "/pull.sh") h.part.part_src_subdir
        none], ?_⟩
    rw [ctlRead, handleControlApi_mkCtlRequest]
    unfold processApiCommands executeBuiltinHandler builtinPull
      createAndRunScript
    simp [hsp, hcmds, hproc, Except.map, PyErr.isPluginBuildError,
      PyErr.isPartsError]
  · refine ⟨[.sourcePull,
      .writeText (h.part.part_run_dir ++ "/pull.sh")
        (scriptFileContent h.plugin.pullCommands none),
      .chmod (h.part.part_run_dir ++ "/pull.sh") 0o755,
      .runScript (h.part.part_run_dir ++ "/pull.sh") h.part.part_src_subdir
        none], ?_⟩
    rw [ctlRead, handleControlApi_mkCtlRequest]
    unfold processApiCommands executeBuiltinHandler builtinPull
      createAndRunScript
    simp [hsp, hcmds, hproc, Except.map, PyErr.isPluginBuildError,
      PyErr.isPartsError]

/-- C9 witness: concrete failing pull process during a scriptlet `default`
call on the PULL step. -/
theorem default_pull_error_replies_err_witness :
    (PyErr.pluginPull "foo").isPartsError = true
    ∧ (PyErr.pluginPull "foo").isPluginBuildError = false
    ∧ ∃ effs, ctlRead sampleHandlerPullFail [] .pull "ovr"
          (mkCtlRequest "default" [])
        = .reply ("ERR " ++ (PyErr.pluginPull "foo").pyStr ++ "\n") [] effs :=
  default_pull_error_replies_err sampleHandlerPullFail [] "ovr"
    ⟨1, some "perr"⟩ (Or.inl rfl) (by decide) rfl

/-- C10 witness: getting a variable whose value is the empty string replies
with the bare `OK` line. -/
theorem get_empty_value_replies_bare_ok_witness :
    ctlRead sampleHandler [("e", "")] .build "ovr" (mkCtlRequest "get" ["e"])
      = .reply "OK\n" [("e", "")] [] :=
  (get_empty_value_replies_bare_ok sampleHandler [("e", "")] .build "ovr" "e"
    rfl).1

/-- Keys after the stage loop: the keys already present plus the processed
partitions. -/
theorem stageLoop_keys (h : HandlerM) (dp : String) (sf : FilesetM)
    (ps : List String)
    (acc : StepContentsM × (List String × List String) × List Effect)
    (m : String) :
    (m ∈ (stageLoop h dp sf ps acc).1.map Prod.fst
      ↔ m ∈ acc.1.map Prod.fst ∨ m ∈ ps) := by
  induction ps generalizing acc with
  | nil => simp [stageLoop]
  | cons p rest ih =>
    obtain ⟨sc, ⟨bf, bd⟩, effs⟩ := acc
    rw [stageLoop]
    repeat' split
    all_goals rw [ih, mem_keys_dictSet]
    all_goals simp [List.mem_cons]
    all_goals tauto

/-- Keys after the prime loop: the keys already present plus the processed
partitions. -/
theorem primeLoop_keys (h : HandlerM) (dp : String) (pf : FilesetM)
    (ps : List String) (acc : StepContentsM × List Effect) (m : String) :
    (m ∈ (primeLoop h dp pf ps acc).1.map Prod.fst
      ↔ m ∈ acc.1.map Prod.fst ∨ m ∈ ps) := by
  induction ps generalizing acc with
  | nil => simp [primeLoop]
  | cons p rest ih =>
    obtain ⟨sc, effs⟩ := acc
    rw [primeLoop]
    repeat' split
    all_goals rw [ih, mem_keys_dictSet]
    all_goals simp [List.mem_cons]
    all_goals tauto

/-- A successful PULL built-in always returns the default-partition-only
contents. -/
theorem builtinPull_ok_contents {h : HandlerM} {effs : List Effect}
    {c : StepContentsM} (hok : builtinPull h = (effs, .ok c)) :
    c = stepContentsInit none false := by
  unfold builtinPull createAndRunScript at hok
  repeat' split at hok
  all_goals simp_all

/-- A successful BUILD built-in always returns the default-partition-only
contents. -/
theorem builtinBuild_ok_contents {h : HandlerM} {effs : List Effect}
    {c : StepContentsM} (hok : builtinBuild h = (effs, .ok c)) :
    c = stepContentsInit none false := by
  unfold builtinBuild createAndRunScript at hok
  cases hbp : h.collabs.buildProc <;> rw [hbp] at hok <;> simp_all

/-- C2 (amended): a successful built-in run returns contents keyed by
exactly the default partition name together with — for the STAGE and PRIME
steps only — the requested partitions; the PULL, OVERLAY and BUILD built-ins
key only the default partition name whatever partitions were requested. -/
theorem run_builtin_keys (h : HandlerM) (effs : List Effect)
    (contents : StepContentsM) (hok : runBuiltin h = (effs, .ok contents))
    (k : String) :
    (k ∈ contents.map Prod.fst ↔
      (k = DEFAULT_PARTITION
        ∨ ((h.step_info.step = .stage ∨ h.step_info.step = .prime)
            ∧ truthyPartitions h.partitions = true
            ∧ k ∈ h.partitions.getD []))) := by
  obtain ⟨part, ⟨step, dp⟩, plugin, collabs, env, partitions⟩ := h
  rw [runBuiltin] at hok
  cases step
  case pull =>
    have hc := builtinPull_ok_contents hok
    subst hc
    have hkeys : (stepContentsInit none false).map Prod.fst
        = [DEFAULT_PARTITION] := rfl
    rw [hkeys]
    simp
  case overlay =>
    have hok2 : builtinOverlay = (effs, Except.ok contents) := hok
    unfold builtinOverlay at hok2
    simp only [Prod.mk.injEq, Except.ok.injEq] at hok2
    obtain ⟨-, hc⟩ := hok2
    subst hc
    have hkeys : (stepContentsInit none false).map Prod.fst
        = [DEFAULT_PARTITION] := rfl
    rw [hkeys]
    simp
  case build =>
    have hc := builtinBuild_ok_contents hok
    subst hc
    have hkeys : (stepContentsInit none false).map Prod.fst
        = [DEFAULT_PARTITION] := rfl
    rw [hkeys]
    simp
  case stage =>
    have hok2 : builtinStage
        ⟨part, ⟨.stage, dp⟩, plugin, collabs, env, partitions⟩
        = (effs, Except.ok contents) := hok
    unfold builtinStage at hok2
    simp only [] at hok2
    by_cases ht : truthyPartitions partitions
    · rw [if_pos ht] at hok2
      simp only [Prod.mk.injEq, Except.ok.injEq] at hok2
      obtain ⟨-, hc⟩ := hok2
      subst hc
      have hinit : (stepContentsInit none true).map Prod.fst
          = [DEFAULT_PARTITION] := rfl
      rw [stageLoop_keys]
      simp [hinit, ht]
    · rw [if_neg ht] at hok2
      simp only [Prod.mk.injEq, Except.ok.injEq] at hok2
      obtain ⟨-, hc⟩ := hok2
      subst hc
      have hinit : (stepContentsInit none true).map Prod.fst
          = [DEFAULT_PARTITION] := rfl
      rw [mem_keys_dictSet]
      simp [hinit, ht]
  case prime =>
    have hok2 : builtinPrime
        ⟨part, ⟨.prime, dp⟩, plugin, collabs, env, partitions⟩
        = (effs, Except.ok contents) := hok
    unfold builtinPrime at hok2
    simp only [] at hok2
    by_cases ht : truthyPartitions partitions
    · rw [if_pos ht] at hok2
      simp only [Prod.mk.injEq, Except.ok.injEq] at hok2
      obtain ⟨-, hc⟩ := hok2
      subst hc
      have hinit : (stepContentsInit none false).map Prod.fst
          = [DEFAULT_PARTITION] := rfl
      rw [primeLoop_keys]
      simp [hinit, ht]
    · rw [if_neg ht] at hok2
      simp only [Prod.mk.injEq, Except.ok.injEq] at hok2
      obtain ⟨-, hc⟩ := hok2
      subst hc
      have hinit : (stepContentsInit none false).map Prod.fst
          = [DEFAULT_PARTITION] := rfl
      rw [mem_keys_dictSet]
      simp [hinit, ht]

/-- C2 counterexample: a PULL built-in run with requested partitions
`["default", "kernel"]` succeeds but returns contents whose keys do not
include `kernel`, so the keys are not exactly the requested partitions. -/
theorem run_builtin_keys_counterexample :
    ∃ effs contents, runBuiltin sampleHandlerPullPartitions
        = (effs, .ok contents)
      ∧ ¬ ("kernel" ∈ contents.map Prod.fst) :=
  ⟨[], [("default", .step [] [])], rfl, by decide⟩

/-- C2 witness: the key-set description instantiated at the PULL handler
with two requested partitions. -/
theorem run_builtin_keys_witness :
    ("kernel" ∈ ([("default", PartContents.step [] [])] : StepContentsM).map
        Prod.fst
      ↔ ("kernel" = DEFAULT_PARTITION
        ∨ ((sampleHandlerPullPartitions.step_info.step = .stage
            ∨ sampleHandlerPullPartitions.step_info.step = .prime)
          ∧ truthyPartitions sampleHandlerPullPartitions.partitions = true
          ∧ "kernel" ∈ sampleHandlerPullPartitions.partitions.getD []))) :=
  run_builtin_keys sampleHandlerPullPartitions []
    [("default", PartContents.step [] [])] rfl "kernel"

/-- Each stage-loop iteration migrates to the backstage directory exactly
when its partition is the default partition (provided no per-partition stage
directory collides with the backstage directory). -/
theorem stageLoop_backstage_count (h : HandlerM) (dp : String) (sf : FilesetM)
    (hne : ∀ p, h.part.get_stage_dir p ≠ h.part.backstage_dir)
    (ps : List String)
    (acc : StepContentsM × (List String × List String) × List Effect) :
    ((stageLoop h dp sf ps acc).2.2).countP (migratesTo h.part.backstage_dir)
      = acc.2.2.countP (migratesTo h.part.backstage_dir) + ps.count dp := by
  induction ps generalizing acc with
  | nil => simp [stageLoop]
  | cons p rest ih =>
    obtain ⟨sc, ⟨bf, bd⟩, effs⟩ := acc
    rw [stageLoop]
    simp only []
    by_cases hp : p = dp
    · rw [if_pos hp]
      rw [ih]
      simp [List.countP_append, List.countP_cons, migratesTo, hne dp,
        List.count_cons, hp]
      omega
    · rw [if_neg hp]
      rw [ih]
      simp [List.countP_append, List.countP_cons, migratesTo, hne p,
        List.count_cons, hp]

/-- The stage loop gives every partition other than the default one empty
backstage sets, preserving that property of the accumulator. -/
theorem stageLoop_backstage_empty (h : HandlerM) (dp : String) (sf : FilesetM)
    (ps : List String)
    (acc : StepContentsM × (List String × List String) × List Effect)
    (hacc : ∀ p c, (p, c) ∈ acc.1 → p ≠ dp →
      c.backstageFiles = [] ∧ c.backstageDirs = []) :
    ∀ p c, (p, c) ∈ (stageLoop h dp sf ps acc).1 → p ≠ dp →
      c.backstageFiles = [] ∧ c.backstageDirs = [] := by
  induction ps generalizing acc with
  | nil => simpa [stageLoop] using hacc
  | cons q rest ih =>
    obtain ⟨sc, ⟨bf, bd⟩, effs⟩ := acc
    rw [stageLoop]
    simp only []
    by_cases hq : q = dp
    · rw [if_pos hq]
      apply ih
      intro p c hm hp
      rcases mem_dictSet hm with hold | hnew
      · exact hacc p c hold hp
      · have : p = q := congrArg Prod.fst hnew
        exact absurd (this.trans hq) hp
    · rw [if_neg hq]
      apply ih
      intro p c hm hp
      rcases mem_dictSet hm with hold | hnew
      · exact hacc p c hold hp
      · have hc : c = PartContents.stage
            (h.collabs.migrateFiles
              (h.collabs.migratableFilesets sf (h.part.part_install_dirs q) dp
                (some q)).1
              (h.collabs.migratableFilesets sf (h.part.part_install_dirs q) dp
                (some q)).2
              (h.part.part_install_dirs q) (h.part.get_stage_dir q)).1
            (h.collabs.migrateFiles
              (h.collabs.migratableFilesets sf (h.part.part_install_dirs q) dp
                (some q)).1
              (h.collabs.migratableFilesets sf (h.part.part_install_dirs q) dp
                (some q)).2
              (h.part.part_install_dirs q) (h.part.get_stage_dir q)).2
            [] [] := congrArg Prod.snd hnew
        rw [hc]
        exact ⟨rfl, rfl⟩

/-- C8: in partitioned mode the STAGE built-in migrates from the export dir
to the backstage dir exactly once per occurrence of the default partition in
the requested partitions (so only when processing the default partition),
and every non-default partition in the returned contents carries empty
backstage file and directory sets. -/
theorem builtinStage_backstage_default_only (h : HandlerM)
    (ht : truthyPartitions h.partitions = true)
    (hne : ∀ p, h.part.get_stage_dir p ≠ h.part.backstage_dir) :
    (builtinStage h).1.countP (migratesTo h.part.backstage_dir)
        = (h.partitions.getD []).count h.step_info.default_partition
    ∧ ∀ contents, (builtinStage h).2 = .ok contents →
        ∀ p c, (p, c) ∈ contents → p ≠ h.step_info.default_partition →
          c.backstageFiles = [] ∧ c.backstageDirs = [] := by
  obtain ⟨part, ⟨step, dp⟩, plugin, collabs, env, partitions⟩ := h
  unfold builtinStage
  simp only [] at ht ⊢
  rw [if_pos ht]
  constructor
  · have hcnt := stageLoop_backstage_count
      ⟨part, ⟨step, dp⟩, plugin, collabs, env, partitions⟩ dp
      ⟨part.spec.stage_files, "stage", dp⟩ hne (partitions.getD [])
      (stepContentsInit none true,
        ((collabs.migratableFilesets ⟨["(" ++ dp ++ ")/*"], "backstage", dp⟩
            part.part_export_dir dp (some dp)).1,
         (collabs.migratableFilesets ⟨["(" ++ dp ++ ")/*"], "backstage", dp⟩
            part.part_export_dir dp (some dp)).2), [])
    simpa using hcnt
  · intro contents hc p c hm hp
    simp only [Except.ok.injEq] at hc
    subst hc
    refine stageLoop_backstage_empty _ dp _ _ _ ?_ p c hm hp
    intro p2 c2 hm2 hp2
    have : (p2, c2) = ("default", PartContents.stage [] [] [] []) :=
      List.mem_singleton.mp hm2
    have hc2 : c2 = PartContents.stage [] [] [] [] := congrArg Prod.snd this
    rw [hc2]
    exact ⟨rfl, rfl⟩

/-- C8 witness: two partitions `["default", "kernel"]`, one backstage
migration, and the `kernel` entry has empty backstage sets. -/
theorem builtinStage_backstage_default_only_witness :
    (builtinStage sampleHandlerStage).1.countP (migratesTo
        sampleHandlerStage.part.backstage_dir)
      = (sampleHandlerStage.partitions.getD []).count
          sampleHandlerStage.step_info.default_partition
    ∧ ∀ contents, (builtinStage sampleHandlerStage).2 = .ok contents →
        ∀ p c, (p, c) ∈ contents →
          p ≠ sampleHandlerStage.step_info.default_partition →
          c.backstageFiles = [] ∧ c.backstageDirs = [] :=
  builtinStage_backstage_default_only sampleHandlerStage (by decide)
    (by
      intro p
      show ("/stage" : String) ≠ "/backstage"
      decide)

end CraftParts

